import Mathlib

/-!
# Interview-Labs: shallow embedding and verification

A shallow embedding of the field-classification / deterministic-scoring core of
the Interview-Labs repository (serverless handlers in `api/` plus the Express
`server.js`), together with theorems settling the frozen claims about that code.

Machine numbers are modelled as `Nat` / `Int` / `Rat`; JavaScript 32-bit
integer coercion (used by the rolling file hashes) is modelled explicitly with
`toInt32`.  Strings are Lean `String`s; `includes`, `toLowerCase`, `trim`,
`split` and friends are modelled on the underlying character lists.
-/

set_option maxRecDepth 40000

namespace InterviewLabs

/-- JS `Math.round`: round half toward positive infinity. -/
def jsRound (q : ℚ) : ℤ := ⌊q + 1/2⌋

/-- JS `ToInt32` coercion: wrap an integer into `[-2^31, 2^31)`. -/
def toInt32 (n : ℤ) : ℤ := (n + 2 ^ 31) % 2 ^ 32 - 2 ^ 31

/-- Lower-case an ASCII character (JS `toLowerCase` restricted to ASCII). -/
def jsLowerChar (c : Char) : Char :=
  if 'A' ≤ c ∧ c ≤ 'Z' then Char.ofNat (c.toNat + 32) else c

/-- JS `String.prototype.toLowerCase` (ASCII fragment). -/
def lowerAscii (s : String) : String := String.mk (s.toList.map jsLowerChar)

/-- JS `haystack.includes(needle)`: substring containment. -/
def jsIncludes (haystack needle : String) : Bool :=
  decide (needle.toList <:+: haystack.toList)

/-- JS `String(n).padStart(2, '0')` for a natural number. -/
def pad2 (n : ℕ) : String := if n < 10 then "0" ++ toString n else toString n

/-- JS number-to-string rendering for the nonnegative multiples of `1/100`
that occur in this code base (ratings are quarters or halves, durations are
tenths): `7` ↦ `"7"`, `7.5` ↦ `"7.5"`, `7.25` ↦ `"7.25"`. -/
def decStr (q : ℚ) : String :=
  let m : ℕ := (jsRound (q * 100)).toNat
  let whole := m / 100
  let frac := m % 100
  if frac = 0 then toString whole
  else if frac % 10 = 0 then toString whole ++ "." ++ toString (frac / 10)
  else if frac < 10 then toString whole ++ ".0" ++ toString frac
  else toString whole ++ "." ++ toString frac

/-- JS `q.toFixed(1)` for a nonnegative rational: always one digit after the
decimal point, rounding half away from zero (which for nonnegative values
agrees with `jsRound`). -/
def toFixed1 (q : ℚ) : String :=
  let n : ℕ := (jsRound (q * 10)).toNat
  toString (n / 10) ++ "." ++ toString (n % 10)

/-- Split a character list at every character satisfying `p`, keeping empty
pieces — the semantics of JS `String.prototype.split` with a single-character
(or single-character-class) separator. -/
def splitByAux (p : Char → Bool) : List Char → List Char → List (List Char)
  | [], acc => [acc.reverse]
  | c :: cs, acc =>
      if p c then acc.reverse :: splitByAux p cs [] else splitByAux p cs (c :: acc)

/-- `splitBy p cs` splits `cs` at every character satisfying `p`.
JS `s.split(/\s+/).filter(Boolean)` equals `splitBy isWs s |>.filter (· ≠ [])`:
splitting at each whitespace character and discarding empty pieces leaves
exactly the maximal non-whitespace runs, the same list the run-separator
regex produces after `filter(Boolean)`. -/
def splitBy (p : Char → Bool) (cs : List Char) : List (List Char) :=
  splitByAux p cs []

/-- The whitespace class used by JS `\s` and `trim()`, restricted to the
characters that occur in this code base. -/
def isWs (c : Char) : Bool := c = ' ' || c = '\t' || c = '\n' || c = '\r'

/-- JS `String.prototype.trim` on a character list: drop leading and trailing
whitespace. -/
def jsTrim (cs : List Char) : List Char :=
  ((cs.dropWhile isWs).reverse.dropWhile isWs).reverse

/-- One step of the 31-based rolling hash shared by `part_004` and `part_005`:
`hash = ((hash << 5) - hash) + charCode; hash = hash & hash` — the shift and
the final bitwise `and` coerce to a signed 32-bit integer. -/
def rollHashStep (h : ℤ) (c : Char) : ℤ :=
  toInt32 (toInt32 (h * 32) - h + c.toNat)

/-- The full rolling hash over a string, starting from `0`. -/
def rollHash (s : String) : ℤ := s.toList.foldl rollHashStep 0

/-- One timestamped mistake entry of an analysis result. -/
structure Mistake where
  timestamp : String
  text : String
deriving DecidableEq

/-- The `AnalysisResult` record assembled by every scorer in the repository:
`{ rating, mistakes, tips, summary }`. -/
structure Analysis where
  rating : ℚ
  mistakes : List Mistake
  tips : List String
  summary : String
deriving DecidableEq

/-! ## `api/analyze.js`: `generateVideoBasedAnalysis(field, videoSize)`

The file-identity scorer of `api/analyze.js` (lines 143–239): hashes the video
size and the field string, picks a per-category base rating, perturbs it by the
estimated duration and the hash, clamps to `[5, 9]`, and assembles mistakes,
tips and a summary. -/

namespace AnalyzeApi

/-- Category selection of `api/analyze.js` lines 173–183: `java` if the
lower-cased field contains `"java"`, `intern` if it contains `"intern"` or
`"entry"`, otherwise the `software` entry is used as the catch-all. -/
def analyzeCategory (field : String) : String :=
  let fieldLower := lowerAscii field
  if jsIncludes fieldLower "java" then "java"
  else if jsIncludes fieldLower "intern" || jsIncludes fieldLower "entry" then "intern"
  else "software"

/-- The `baseRating` constants of the `fieldAnalysis` table in
`api/analyze.js` lines 155–171. -/
def analyzeBaseRating (cat : String) : ℚ :=
  if cat = "java" then 8 else if cat = "intern" then 6 else 7

/-- `(sizeHash + fieldHash) % 1000` from `api/analyze.js` lines 147–149:
`sizeHash = Math.floor(videoSize / 1000)`, `fieldHash` the sum of the field's
character codes. -/
def combinedHash (field : String) (videoSize : ℕ) : ℕ :=
  (videoSize / 1000 + (field.toList.map Char.toNat).sum) % 1000

/-- `estimatedDurationMinutes` from `api/analyze.js` line 152:
`Math.max(0.5, Math.min(10, videoSize / (1024 * 1024 * 2)))`. -/
def durationMinutes (videoSize : ℕ) : ℚ :=
  max (1/2) (min 10 ((videoSize : ℚ) / (1024 * 1024 * 2)))

/-- The rating calculation of `api/analyze.js` lines 185–194: per-category
base, duration bumps, hash variation `(combinedHash % 3) - 1`, then
`Math.max(5, Math.min(9, Math.round(rating * 10) / 10))`. -/
def videoRating (field : String) (videoSize : ℕ) : ℚ :=
  let dur := durationMinutes videoSize
  let r1 : ℚ := analyzeBaseRating (analyzeCategory field)
    + (if dur > 2 then 1/2 else 0) + (if dur > 5 then 1/2 else 0)
  let r2 : ℚ := r1 + ((combinedHash field videoSize % 3 : ℕ) : ℚ) - 1
  max 5 (min 9 (((jsRound (r2 * 10) : ℤ) : ℚ) / 10))

/-- `generateVideoBasedAnalysis(field, videoSize)` from `api/analyze.js`
lines 143–239, translated clause by clause.  (The unused `strengthAreas` /
`improvementAreas` strings and the extra `videoMetrics` object are not part of
the spec's `AnalysisResult` and carry no control flow; everything that feeds
`rating`, `mistakes`, `tips` and `summary` is embedded.) -/
def generateVideoBasedAnalysis (field : String) (videoSize : ℕ) : Analysis :=
  let combinedHash : ℕ := combinedHash field videoSize
  let dur : ℚ := durationMinutes videoSize
  let fieldLower := lowerAscii field
  let rating : ℚ := videoRating field videoSize
  let durStr := decStr (((jsRound (dur * 10) : ℤ) : ℚ) / 10)
  let mistakes : List Mistake :=
    [ ⟨"0:" ++ pad2 (15 + combinedHash % 45),
       if jsIncludes fieldLower "intern" then
         "Show more enthusiasm when discussing your learning goals and career aspirations"
       else
         "Consider providing more specific metrics and concrete examples from your experience"⟩,
      ⟨toString (⌊dur * (6/10)⌋ : ℤ) ++ ":" ++ pad2 (10 + combinedHash % 50),
       if rating < 7 then
         "Work on maintaining consistent eye contact and confident body language"
       else
         "Good engagement level - consider asking more thoughtful questions about the role"⟩ ]
  let tips : List String :=
    [ "Based on your " ++ durStr ++ "-minute interview response",
      if jsIncludes fieldLower "java" then
        "Prepare more specific examples of Java applications you've built and challenges you've solved"
      else if jsIncludes fieldLower "intern" then
        "Research the company's tech stack and show genuine interest in their projects"
      else
        "Use the STAR method (Situation, Task, Action, Result) for behavioral questions",
      if rating ≥ 7 then
        "Strong technical communication - continue practicing with mock interviews"
      else
        "Focus on structuring your responses more clearly and providing concrete examples",
      "Practice explaining complex concepts in simpler terms for diverse audiences",
      "For " ++ field ++ " interviews, prepare 3-4 detailed project examples with challenges and outcomes" ]
  { rating := rating
    mistakes := mistakes.take (if rating < 6 then 3 else 2)
    tips := tips.take (if rating < 7 then 5 else 4)
    summary :=
      "Video analysis complete for " ++ field ++ " position (" ++ durStr ++
      " min estimated). Overall performance: " ++ decStr rating ++ "/10. " ++
      (if rating ≥ 7 then "Strong interview skills with minor areas for refinement."
       else if rating ≥ 6 then "Good foundation with specific areas to improve for better results."
       else "Focus on the recommended areas to significantly enhance your interview performance.") }

/-- The fixed analysis returned by the no-video branch of the `api/analyze.js`
handler (lines 67–90). -/
def noVideoAnalysis (field : String) : Analysis :=
  { rating := 0
    mistakes :=
      [ ⟨"0:00", "No video content detected. Please record or upload a video file for analysis."⟩ ]
    tips :=
      [ "Use the \"Record Video\" option to record directly in your browser",
        "Keep recordings under 2-3 minutes for best analysis",
        "Ensure good lighting and clear audio quality",
        "Look directly at the camera to simulate eye contact",
        "If uploading, compress videos to under 50MB" ]
    summary :=
      "Video analysis requires actual video content. Please record or upload a video to receive detailed feedback for your " ++
      field ++ " interview." }

/-- An HTTP response of the `api/analyze.js` handler, reduced to the parts
the claims talk about: the status code, the `success` flag when the JSON body
carries one, and the `analysis` record when the body carries one. -/
structure ApiResponse where
  status : ℕ
  success : Option Bool
  analysis : Option Analysis
deriving DecidableEq

/-- The `api/analyze.js` request handler (lines 10–117), translated branch by
branch: OPTIONS preflight, method check, the 50 MB `content-length` guard,
multipart detection (video upload, field from the query string), JSON bodies
(`field` / `hasVideo`), the no-video short-circuit, and the scored path.
Unknown content types leave `field = 'general'` and `hasVideo = false`. -/
def handler (method contentType : String) (contentLength : ℕ)
    (queryField : Option String) (jsonField : Option String)
    (jsonHasVideo : Bool) : ApiResponse :=
  if method = "OPTIONS" then ⟨200, none, none⟩
  else if method ≠ "POST" then ⟨405, none, none⟩
  else if contentLength > 50 * 1024 * 1024 then ⟨413, none, none⟩
  else
    let isMultipart := jsIncludes contentType "multipart/form-data"
    let isJson := jsIncludes contentType "application/json"
    let field := if isMultipart then queryField.getD "general"
                 else if isJson then jsonField.getD "general" else "general"
    let hasVideo := if isMultipart then true else if isJson then jsonHasVideo else false
    let videoSize := if isMultipart then contentLength else 0
    if hasVideo then ⟨200, some true, some (generateVideoBasedAnalysis field videoSize)⟩
    else ⟨200, some true, some (noVideoAnalysis field)⟩

end AnalyzeApi

/-! ## `src/unnamed/part_004`: `generateVideoBasedAnalysis(field, videoFile)`

The deterministic file-identity scorer (lines 151–242): a 32-bit rolling hash
of `fileName + fileSize + field` drives a bounded pseudo-variation of a
per-category base rating and the selection of canned mistakes. -/

namespace Part004

/-- `Math.abs` of the rolling hash of `fileName + fileSize.toString() + field`
(`part_004` lines 157–164). -/
def fileHash (field fileName : String) (fileSize : ℕ) : ℕ :=
  (rollHash (fileName ++ toString fileSize ++ field)).natAbs

/-- The base rating of `part_004` lines 169–180: a per-category constant
adjusted by the file size in megabytes. -/
def baseRating (field : String) (fileSize : ℕ) : ℚ :=
  let fieldLower := lowerAscii field
  let b : ℚ :=
    if jsIncludes fieldLower "java" then 7
    else if jsIncludes fieldLower "senior" || jsIncludes fieldLower "lead" then 15/2
    else if jsIncludes fieldLower "intern" || jsIncludes fieldLower "entry" then 11/2
    else 6
  let sizeMB : ℚ := (fileSize : ℚ) / (1024 * 1024)
  b + (if sizeMB > 10 then 1/2 else 0) + (if sizeMB > 20 then 1/2 else 0)
    - (if sizeMB < 2 then 1/2 else 0)

/-- The final rating of `part_004` lines 183–185: hash variation
`((fileHash % 8) - 4) * 0.25`, clamp to `[5, 9]`, round to quarters. -/
def rating (field fileName : String) (fileSize : ℕ) : ℚ :=
  let hashVariation : ℚ := (((fileHash field fileName fileSize % 8 : ℕ) : ℚ) - 4) * (1/4)
  let finalRating : ℚ := max 5 (min 9 (baseRating field fileSize + hashVariation))
  ((jsRound (finalRating * 4) : ℤ) : ℚ) / 4

/-- The six-entry `mistakePool` of `part_004` lines 195–202. -/
def mistakePool (field : String) : List Mistake :=
  [ ⟨"0:30", "Consider providing more specific examples when discussing your technical experience"⟩,
    ⟨"1:15", "Work on maintaining more consistent eye contact with the camera"⟩,
    ⟨"1:45", "Try to include quantifiable metrics and achievements in your responses"⟩,
    ⟨"2:10", "Demonstrate deeper knowledge of " ++ field ++ "-specific concepts and terminology"⟩,
    ⟨"0:45", "Practice speaking at a slightly more measured pace for better clarity"⟩,
    ⟨"1:30", "Structure your answers using the STAR method (Situation, Task, Action, Result)"⟩ ]

/-- The two-entry per-category tip table of `part_004` lines 213–218. -/
def fieldTips (key : String) : List String :=
  if key = "java" then
    [ "Show expertise in Spring framework and enterprise patterns",
      "Demonstrate understanding of JVM optimization and performance tuning" ]
  else if key = "intern" then
    [ "Highlight specific coursework projects and technologies learned",
      "Show enthusiasm for mentorship and professional development" ]
  else if key = "frontend" then
    [ "Discuss responsive design and cross-browser compatibility experience",
      "Show knowledge of modern JavaScript frameworks and tools" ]
  else
    [ "Prepare examples of debugging complex production issues",
      "Discuss your approach to code reviews and quality assurance" ]

/-- `generateVideoBasedAnalysis(field, videoFile)` from `part_004`
lines 151–242, with the file identity passed as `(fileName, fileSize)`. -/
def generateVideoBasedAnalysis (field fileName : String) (fileSize : ℕ) : Analysis :=
  let h : ℕ := fileHash field fileName fileSize
  let roundedRating : ℚ := rating field fileName fileSize
  let sizeMB : ℚ := (fileSize : ℚ) / (1024 * 1024)
  let fieldLower := lowerAscii field
  let numMistakes : ℕ := if roundedRating ≥ 8 then 1 else if roundedRating ≥ 7 then 2 else 3
  let selectedMistakes : List Mistake :=
    (List.range numMistakes).map
      (fun i => (mistakePool field).getD ((h + i * 7) % (mistakePool field).length) ⟨"", ""⟩)
  let baseTips : List String :=
    [ "File-based analysis: " ++ toFixed1 sizeMB ++ "MB video processed",
      "Use concrete examples with specific technologies and outcomes",
      "Practice confident body language and clear articulation",
      "Prepare thoughtful questions about the role and company culture" ]
  let fieldKey : String :=
    if jsIncludes fieldLower "java" then "java"
    else if jsIncludes fieldLower "intern" then "intern"
    else if jsIncludes fieldLower "frontend" then "frontend"
    else "software"
  { rating := roundedRating
    mistakes := selectedMistakes
    tips := (baseTips ++ fieldTips fieldKey).take 5
    summary :=
      "Real video file analysis for " ++ field ++ " position. File: " ++ fileName ++
      " (" ++ toFixed1 sizeMB ++ "MB). Rating: " ++ decStr roundedRating ++ "/10. " ++
      (if roundedRating ≥ 7 then "Strong performance with targeted improvement areas."
       else "Good foundation with specific enhancement opportunities identified.") }

end Part004

/-! ## `src/unnamed/part_005`: `generateRealisticVideoAnalysis(field, videoFile)`

The fallback scorer of `part_005` (lines 186–199 and 203–284), reached when
the Cohere call (an external collaborator, excluded from the core) is
unavailable or fails: a rolling file hash selects a rating from a weighted
list, and a field-keyed table supplies rating, mistakes and tips. -/

namespace Part005

/-- `generateFileHash(filename, size)` from `part_005` lines 275–284. -/
def generateFileHash (filename : String) (size : ℕ) : ℕ :=
  (rollHash (filename ++ toString size)).natAbs

/-- The `{rating, mistakes, tips}` triple returned by
`getFieldSpecificAnalysis(field, hash)`. -/
structure FieldSpecific where
  rating : ℚ
  mistakes : List Mistake
  tips : List String
deriving DecidableEq

/-- `getFieldSpecificAnalysis(field, hash)` from `part_005` lines 203–272:
software / java / intern tables matched in that order on the lower-cased
field, with a field-interpolating default. -/
def getFieldSpecificAnalysis (field : String) (hash : ℕ) : FieldSpecific :=
  let fieldLower := lowerAscii field
  if jsIncludes fieldLower "software" || jsIncludes fieldLower "engineer" ||
      jsIncludes fieldLower "developer" then
    { rating := 7 + ((hash % 2 : ℕ) : ℚ)
      mistakes :=
        [ ⟨"0:15", "Consider speaking slightly slower for better clarity"⟩,
          ⟨"0:45", "Try to provide more specific technical examples"⟩,
          ⟨"1:20", "Good content, but could benefit from more confident delivery"⟩ ]
      tips :=
        [ "For software engineering interviews, prepare specific technical examples from your projects",
          "Practice explaining complex technical concepts in simple terms",
          "Be ready to discuss your problem-solving approach with concrete examples",
          "Use the STAR method (Situation, Task, Action, Result) for behavioral questions" ] }
  else if jsIncludes fieldLower "java" then
    { rating := 8
      mistakes :=
        [ ⟨"0:25", "Provide more specific examples of Java frameworks you've used"⟩,
          ⟨"1:10", "Explain JVM concepts more clearly for broader audience"⟩ ]
      tips :=
        [ "Prepare to discuss Java-specific concepts like memory management and concurrency",
          "Have examples ready of Java frameworks you've worked with (Spring, Hibernate)",
          "Be ready to explain your approach to debugging Java applications",
          "Practice discussing design patterns and when you've applied them" ] }
  else if jsIncludes fieldLower "intern" || jsIncludes fieldLower "entry" then
    { rating := 6 + ((hash % 2 : ℕ) : ℚ)
      mistakes :=
        [ ⟨"0:20", "Show more enthusiasm about learning opportunities"⟩,
          ⟨"0:50", "Provide more details about your academic projects"⟩,
          ⟨"1:35", "Ask more thoughtful questions about the team"⟩ ]
      tips :=
        [ "Highlight specific technologies you've learned in coursework",
          "Share examples of challenging projects you've completed",
          "Demonstrate your ability to learn new skills quickly",
          "Show genuine interest in the company's mission and products" ] }
  else
    { rating := 7
      mistakes :=
        [ ⟨"0:30", "Consider providing more specific examples from your " ++ field ++ " experience"⟩,
          ⟨"1:15", "Work on maintaining steady eye contact throughout responses"⟩ ]
      tips :=
        [ "Prepare detailed examples of challenging " ++ field ++ " projects you've completed",
          "Stay current with latest trends and best practices in " ++ field,
          "Use the STAR method for behavioral questions" ] }

/-- The weighted rating list of `part_005` line 189. -/
def ratingsList : List ℕ := [6, 7, 7, 8, 8, 8, 9]

/-- The hash-selected rating of `part_005` line 190:
`ratings[fileHash % ratings.length]`. -/
def hashRating (filename : String) (size : ℕ) : ℚ :=
  ((ratingsList.getD (generateFileHash filename size % ratingsList.length) 0 : ℕ) : ℚ)

/-- The fallback branch of `generateRealisticVideoAnalysis(field, videoFile)`
(`part_005` lines 186–199): the hash-selected rating feeds the summary band,
while the returned `rating` field is `fieldSpecificAnalysis.rating || rating`
(the table rating when nonzero, which it always is). -/
def fallbackAnalysis (field filename : String) (size : ℕ) : Analysis :=
  let fileHash := generateFileHash filename size
  let rating : ℚ := hashRating filename size
  let fsa := getFieldSpecificAnalysis field fileHash
  { rating := if fsa.rating ≠ 0 then fsa.rating else rating
    mistakes := fsa.mistakes
    tips := fsa.tips
    summary :=
      "Based on video analysis: " ++
      (if rating ≥ 7 then "Strong" else if rating ≥ 5 then "Good" else "Developing") ++
      " interview performance for " ++ field ++
      ". Continue practicing with specific examples and focus on clear, confident delivery." }

end Part005

/-! ## `api/questions.js`: the question-generation handler

The template fallback path of `api/questions.js` (lines 15–182): clamp the
requested count, match the field against ordered keyword sets, pick the
matching template pool (or the generic one), shuffle, and slice.  The Cohere
path is an external collaborator and is excluded; the shuffle
(`sort(() => 0.5 - Math.random())`) is modelled by quantifying over the
permutation of the resolved pool it produces. -/

namespace QuestionsApi

/-- The count clamp of `api/questions.js` line 18:
`Math.max(1, Math.min(20, Number(count)))` — no rounding is applied. -/
def questionCount (count : ℚ) : ℚ := max 1 (min 20 count)

/-- The `software` template pool (`api/questions.js` lines 97–108); entries 2
and 6 interpolate the trimmed field. -/
def softwarePool (field : String) : List String :=
  [ "Tell me about your experience with system design and architecture.",
    "How do you approach debugging a complex production issue in " ++ field ++ "?",
    "Describe a challenging technical problem you solved recently.",
    "How would you optimize a slow-performing application or database?",
    "Explain your process for code reviews and maintaining code quality.",
    "How do you stay current with new technologies in " ++ field ++ "?",
    "Describe a time you had to learn a new framework or technology quickly.",
    "How would you design a system to handle millions of users?",
    "Tell me about a time you disagreed with a technical decision.",
    "How do you handle technical debt in legacy systems?" ]

/-- The `java` template pool (`api/questions.js` lines 109–120). -/
def javaPool : List String :=
  [ "Explain the difference between Java's heap and stack memory.",
    "How do you handle memory management and garbage collection in Java?",
    "Describe your experience with Spring framework and dependency injection.",
    "How would you optimize Java application performance?",
    "Tell me about a complex multithreading problem you solved in Java.",
    "How do you handle exception handling and error management?",
    "Describe your approach to unit testing in Java applications.",
    "How would you design a RESTful API using Spring Boot?",
    "Tell me about your experience with Java design patterns.",
    "How do you manage dependencies and build processes in Java projects?" ]

/-- The `intern` template pool (`api/questions.js` lines 121–132); entry 1
interpolates the trimmed field. -/
def internPool (field : String) : List String :=
  [ "Why are you interested in this " ++ field ++ " internship opportunity?",
    "Tell me about a challenging project you worked on during your studies.",
    "How do you prioritize tasks when working on multiple assignments?",
    "Describe a time you had to learn a new technology or skill quickly.",
    "How would you handle receiving constructive criticism on your work?",
    "Tell me about a team project where you had to collaborate effectively.",
    "What programming languages or tools are you most comfortable with?",
    "Describe a problem you solved using creative thinking.",
    "How do you stay motivated when facing difficult challenges?",
    "Tell me about a time you made a mistake and how you handled it." ]

/-- The generic fallback pool (`api/questions.js` lines 154–167), every entry
interpolating the trimmed field. -/
def genericPool (field : String) : List String :=
  [ "Tell me about your most challenging project in " ++ field ++ ".",
    "How do you stay updated with trends and developments in " ++ field ++ "?",
    "Describe a time you had to learn something new quickly for " ++ field ++ ".",
    "How do you handle pressure and tight deadlines in " ++ field ++ "?",
    "Tell me about a mistake you made in " ++ field ++ " and how you handled it.",
    "Describe your problem-solving approach for complex " ++ field ++ " issues.",
    "How do you collaborate effectively with others in " ++ field ++ " projects?",
    "What motivates you most about working in " ++ field ++ "?",
    "How do you prioritize tasks when managing multiple " ++ field ++ " projects?",
    "Tell me about a time you had to explain complex " ++ field ++ " concepts to non-experts." ]

/-- The ordered `fieldMappings` keyword table of `api/questions.js`
lines 139–143 (`Object.entries` iterates in insertion order:
`intern`, `java`, `software`). -/
def fieldMappings : List (String × List String) :=
  [ ("intern", ["intern", "internship", "trainee", "entry level", "entry-level", "student", "graduate"]),
    ("java", ["java", "jvm", "spring", "hibernate", "maven", "gradle"]),
    ("software", ["software", "developer", "programmer", "engineer", "coding", "programming",
                  "backend", "frontend", "fullstack", "web development"]) ]

/-- First-match-wins classification over `fieldMappings`
(`api/questions.js` lines 145–151): `none` means no keyword set matched and
the generic pool is used. -/
def matchedCategory (field : String) : Option String :=
  let fieldLower := lowerAscii field
  (fieldMappings.find? (fun m => m.2.any (fun kw => jsIncludes fieldLower kw))).map (·.1)

/-- The resolved template pool (`api/questions.js` lines 136–167): the pool of
the first matching category, or the generic pool when nothing matched. -/
def selectedTemplates (field : String) : List String :=
  match matchedCategory field with
  | some "intern" => internPool field
  | some "java" => javaPool
  | some "software" => softwarePool field
  | _ => genericPool field

/-- The shuffle-and-slice step of `api/questions.js` lines 170–171: the
shuffled pool (any permutation of the resolved templates) sliced to the
clamped count. -/
def questionsOutput (shuffled : List String) (count : ℕ) : List String :=
  shuffled.take count

/-- JS `s.endsWith('?')`. -/
def endsWithQ (s : String) : Bool := s.toList.getLast? = some '?'

end QuestionsApi

/-! ## `server.js`: count clamp and fallback video analysis

The Express near-duplicate: the `/api/questions` count clamp (line 89) and the
fallback analysis of `/api/analyze/video` (lines 594–654), used when the
Cohere call fails or no API key is configured.  The filler-word regex count is
supplied as a parameter; every other quantity is computed from the
transcript. -/

namespace ServerJs

/-- The `/api/questions` count clamp of `server.js` line 89:
`Math.max(1, Math.min(20, Number(req.body.count) || 7))` — `|| 7` replaces a
zero (or non-numeric) count by the default 7; no rounding is applied. -/
def serverCount (count : ℚ) : ℚ := max 1 (min 20 (if count = 0 then 7 else count))

/-- `fullText.split(/\s+/).filter(Boolean).length` (`server.js` line 594). -/
def words (fullText : String) : ℕ :=
  ((splitBy isWs fullText.toList).filter (· ≠ [])).length

/-- `(fullText.match(/[.!?]/g)||[]).length` wrapped in `Math.max(1, ·)`
(`server.js` line 596). -/
def sentences (fullText : String) : ℕ :=
  max 1 ((fullText.toList.filter (fun c => c = '.' || c = '!' || c = '?')).length)

/-- The branch dispatch of `server.js` lines 599–647: the pre-rounding
`rating`, the `mistakes` and the `tips` produced by the no-speech branch
(`fullText.trim().length === 0`), the very-brief branch (`words < 20`), or
the scored branch. -/
def fallbackParts (fullText field : String) (fillerMatches : ℕ) :
    ℚ × List Mistake × List String :=
  let w := words fullText
  let avg : ℤ := max 1 (jsRound ((w : ℚ) / (sentences fullText : ℚ)))
  if jsTrim fullText.toList = [] then
      (2,
       [ ⟨"00:00", "No speech detected - make sure to speak clearly into the microphone"⟩ ],
       [ "Ensure your microphone is working and speak clearly",
         "Record in a quiet environment to improve audio quality",
         "Practice your responses out loud before recording" ])
    else if w < 20 then
      (4,
       [ ⟨"00:00", "Response too brief (" ++ toString w ++ " words) - provide more detailed examples"⟩ ],
       [ "Use the STAR method: Situation, Task, Action, Result",
         "Aim for 1-2 minutes per answer with specific examples",
         "Elaborate on your experience and achievements" ])
    else
      (max 1 (min 10 (8 - (fillerMatches : ℚ) * (2/5) - max 0 (((avg : ℚ) - 25) / 5))),
       (if fillerMatches > 5 then
          [ ⟨"00:00", "Excessive filler words detected (" ++ toString fillerMatches ++
              " instances) - practice pausing instead"⟩ ] else []) ++
       (if avg > 30 then
          [ ⟨"00:00", "Very long sentences (avg " ++ toString avg ++
              " words) - break into shorter, clearer points"⟩ ] else []),
       (if fillerMatches > 3 then
          [ "Practice pausing briefly instead of using filler words like \"um\" and \"uh\"" ] else []) ++
       (if avg > 25 then
          [ "Structure your answers with clear, concise sentences" ] else []) ++
       [ "Maintain eye contact with the camera and speak with confidence",
         "For " ++ (if field = "" then "this" else field) ++
           " interviews, include specific examples from your experience" ])

/-- The fallback analysis of `server.js` lines 591–655: the branch result of
`fallbackParts`, with the final `rating` field being `Math.round(rating)` and
the summary interpolating the word count. -/
def fallbackVideoAnalysis (fullText field : String) (fillerMatches : ℕ) : Analysis :=
  let branch := fallbackParts fullText field fillerMatches
  { rating := ((jsRound branch.1 : ℤ) : ℚ)
    mistakes := branch.2.1
    tips := branch.2.2
    summary :=
      "Analysis based on " ++ toString (words fullText) ++ " words spoken. " ++
      (if fullText.toList.length = 0 then "No speech detected."
       else "Basic speech pattern analysis performed.") }

end ServerJs

/-! ## `src/unnamed/part_003`: `analyzeRealSpeech(transcription, field)`

The text-signal scorer (lines 168–297).  The transcript text and field are
inputs; the five regex occurrence counts (technical terms, confidence words,
filler words, specific metrics, question words) are supplied as parameters,
since the claims hold for every value of those counts; segment start times
feed `findFillerTimestamp`. -/

namespace Part003

/-- `transcription.text.split(' ').length` (`part_003` line 170): JS splits at
every single space, keeping empty pieces, so the count is at least 1 for any
string. -/
def wordCount (text : String) : ℕ :=
  (splitBy (· = ' ') text.toList).length

/-- `findFillerTimestamp(segments, fillerCount)` from `part_003`
lines 288–297, with segments reduced to their start times in seconds. -/
def findFillerTimestamp (segments : List ℚ) : String :=
  if segments.length = 0 then "1:15"
  else
    let start := segments.getD (segments.length / 2) 0
    let minutes : ℤ := ⌊start / 60⌋
    toString minutes ++ ":" ++ pad2 (⌊start - 60 * (minutes : ℚ)⌋).toNat

/-- `analyzeRealSpeech(transcription, field)` from `part_003` lines 168–286:
short-circuits for fewer than 5 and fewer than 20 words, then the additive
rating formula clamped by `Math.min(9, Math.max(1, Math.round(rating*2)/2))`
with hash-free, content-derived mistakes and tips. -/
def analyzeRealSpeech (text field : String) (segments : List ℚ)
    (technicalTerms confidenceWords fillerWords specificMetrics questionWords : ℕ) :
    Analysis :=
  let wc := wordCount text
  if wc < 5 then
    { rating := 0
      mistakes :=
        [ ⟨"0:05", "No meaningful speech detected - please speak clearly into the microphone"⟩ ]
      tips :=
        [ "Ensure you are actually speaking during the recording",
          "Check microphone permissions and audio levels",
          "Speak clearly and at normal volume",
          "Record in a quiet environment" ]
      summary := "No speech content detected for analysis. Please record again with clear audio." }
  else if wc < 20 then
    { rating := 2
      mistakes :=
        [ ⟨"0:10", "Response too brief - provide more detailed answers with specific examples"⟩ ]
      tips :=
        [ "Elaborate on your experience with concrete examples",
          "Use the STAR method (Situation, Task, Action, Result)",
          "Aim for 1-2 minutes per response",
          "Include specific technologies and metrics" ]
      summary := "Brief response detected (" ++ toString wc ++
        " words). Expand your answers for better evaluation." }
  else
    let fieldLower := lowerAscii field
    let r : ℚ := 4
      + (if wc > 50 then 1 else 0) + (if wc > 100 then 1/2 else 0)
      + (if technicalTerms > 2 then 1 else 0) + (if technicalTerms > 5 then 1/2 else 0)
      + (if confidenceWords > 2 then 1 else 0) + (if specificMetrics > 0 then 1 else 0)
      + (if (fillerWords : ℚ) < (wc : ℚ) / 20 then 1/2 else 0)
      + (if questionWords > 0 then 1/2 else 0)
      + (if jsIncludes fieldLower "senior" ∧ technicalTerms > 4 then 1/2 else 0)
      + (if jsIncludes fieldLower "intern" ∧ confidenceWords > 1 then 1/2 else 0)
    let rating : ℚ := min 9 (max 1 (((jsRound (r * 2) : ℤ) : ℚ) / 2))
    let mistakes : List Mistake :=
      (if (fillerWords : ℚ) > (wc : ℚ) / 15 then
        [ ⟨findFillerTimestamp segments,
           "Reduce filler words (" ++ toString (jsRound ((fillerWords : ℚ) / (wc : ℚ) * 100)) ++
           "% of speech) - practice speaking more deliberately"⟩ ] else []) ++
      (if specificMetrics = 0 ∧ wc > 30 then
        [ ⟨"1:30", "Include specific metrics and quantifiable achievements in your examples"⟩ ]
       else []) ++
      (if technicalTerms < 2 ∧ wc > 30 then
        [ ⟨"2:00", "Use more " ++ field ++ "-specific technical terminology to demonstrate expertise"⟩ ]
       else []) ++
      (if confidenceWords < 2 ∧ wc > 40 then
        [ ⟨"1:45", "Use more confident, achievement-oriented language when describing your experience"⟩ ]
       else [])
    let tips : List String :=
      [ "Real speech analysis: " ++ toString wc ++ " words, " ++ toString technicalTerms ++
          " technical terms, " ++ toString confidenceWords ++ " confidence indicators",
        if technicalTerms > 3 then "Excellent technical vocabulary usage"
        else "Include more " ++ field ++ "-specific technical concepts and terminology",
        if confidenceWords > 2 then "Strong confident communication style detected"
        else "Practice using more achievement-focused language",
        if specificMetrics > 0 then "Good use of quantifiable results"
        else "Always include specific numbers and measurable outcomes",
        if (fillerWords : ℚ) < (wc : ℚ) / 25 then "Clear, fluent speech patterns"
        else "Practice reducing filler words for more professional delivery" ]
    { rating := rating
      mistakes := mistakes.take 3
      tips := tips.take 5
      summary :=
        "Real speech transcription analysis: " ++ toString wc ++
        " words analyzed. Technical terms: " ++ toString technicalTerms ++
        ", Confidence indicators: " ++ toString confidenceWords ++
        ", Filler words: " ++ toString fillerWords ++ ". Rating: " ++ decStr rating ++ "/10. " ++
        (if rating ≥ 7 then "Strong interview performance with clear technical communication."
         else if rating ≥ 5 then
           "Good foundation with specific areas for improvement based on actual speech content."
         else "Focus on the identified areas to significantly enhance interview performance.") }

end Part003

/-! ## Spec-side definitions

Definitions written from the spec's words (not from the source), used only to
compare a claim's formula against the embedded code. -/

/-- The spec's claimed count formula `clamp(round(requestedCount), 1, 20)`:
round to the nearest integer, then clamp to `[1, 20]`. -/
def specClampRound (count : ℚ) : ℚ := max 1 (min 20 ((jsRound count : ℤ) : ℚ))

/-- The spec's claimed qualitative band of a rating: `rating >= 7 → strong`,
`rating >= 6 → good`, else `developing` — instantiated with the band
sentences of the `api/analyze.js` summary. -/
def specBandSentence (rating : ℚ) : String :=
  if rating ≥ 7 then "Strong interview skills with minor areas for refinement."
  else if rating ≥ 6 then "Good foundation with specific areas to improve for better results."
  else "Focus on the recommended areas to significantly enhance your interview performance."

/-- The spec's claimed qualitative band word for a rating, with the
`Strong` / `Good` / `Developing` words of the `part_005` summary. -/
def specBandWord (rating : ℚ) : String :=
  if rating ≥ 7 then "Strong" else if rating ≥ 6 then "Good" else "Developing"

/-- A rational that is an integer multiple of `1/2`. -/
def IsHalfInt (q : ℚ) : Prop := ∃ m : ℤ, q = m / 2

/-- A rational that is an integer multiple of `1/4` (the spec claim's
"integer multiple of 0.25"). -/
def IsQuarterInt (q : ℚ) : Prop := ∃ m : ℤ, q = m / 4

/-! ## Helper lemmas -/

theorem jsRound_intCast (m : ℤ) : jsRound (m : ℚ) = m := by
  unfold jsRound
  rw [add_comm, Int.floor_add_int]
  norm_num

theorem jsRound_eq_of_between {q : ℚ} {m : ℤ} (h1 : (m : ℚ) ≤ q + 1/2)
    (h2 : q + 1/2 < (m : ℚ) + 1) : jsRound q = m := by
  unfold jsRound
  exact Int.floor_eq_iff.mpr ⟨h1, h2⟩

theorem jsRound_le {q : ℚ} {b : ℤ} (h : q ≤ (b : ℚ)) : jsRound q ≤ b := by
  have h2 : jsRound q ≤ jsRound (b : ℚ) :=
    Int.floor_le_floor (add_le_add_right h (1/2))
  rwa [jsRound_intCast b] at h2

theorem le_jsRound {a : ℤ} {q : ℚ} (h : (a : ℚ) ≤ q) : a ≤ jsRound q := by
  have h2 : jsRound (a : ℚ) ≤ jsRound q :=
    Int.floor_le_floor (add_le_add_right h (1/2))
  rwa [jsRound_intCast a] at h2

theorem IsHalfInt.quarter {q : ℚ} (h : IsHalfInt q) : IsQuarterInt q := by
  obtain ⟨m, rfl⟩ := h
  exact ⟨2 * m, by push_cast; ring⟩

theorem isHalfInt_intCast (m : ℤ) : IsHalfInt (m : ℚ) :=
  ⟨2 * m, by push_cast; ring⟩

theorem isHalfInt_natCast (n : ℕ) : IsHalfInt (n : ℚ) :=
  ⟨2 * n, by push_cast; ring⟩

theorem IsHalfInt.add {a b : ℚ} (ha : IsHalfInt a) (hb : IsHalfInt b) : IsHalfInt (a + b) := by
  obtain ⟨m, rfl⟩ := ha
  obtain ⟨n, rfl⟩ := hb
  exact ⟨m + n, by push_cast; ring⟩

theorem IsHalfInt.sub {a b : ℚ} (ha : IsHalfInt a) (hb : IsHalfInt b) : IsHalfInt (a - b) := by
  obtain ⟨m, rfl⟩ := ha
  obtain ⟨n, rfl⟩ := hb
  exact ⟨m - n, by push_cast; ring⟩

theorem IsHalfInt.ite (c : Prop) [Decidable c] {a b : ℚ} (ha : IsHalfInt a) (hb : IsHalfInt b) :
    IsHalfInt (if c then a else b) := by
  split <;> assumption

theorem isQuarterInt_add {a b : ℚ} (ha : IsQuarterInt a) (hb : IsQuarterInt b) :
    IsQuarterInt (a + b) := by
  obtain ⟨m, rfl⟩ := ha
  obtain ⟨n, rfl⟩ := hb
  exact ⟨m + n, by push_cast; ring⟩

theorem IsQuarterInt.min {a b : ℚ} (ha : IsQuarterInt a) (hb : IsQuarterInt b) :
    IsQuarterInt (min a b) := by
  rcases min_choice a b with h | h <;> rw [h] <;> assumption

theorem IsQuarterInt.max {a b : ℚ} (ha : IsQuarterInt a) (hb : IsQuarterInt b) :
    IsQuarterInt (max a b) := by
  rcases max_choice a b with h | h <;> rw [h] <;> assumption

theorem IsQuarterInt.jsRound_four {q : ℚ} (h : IsQuarterInt q) :
    ((jsRound (q * 4) : ℤ) : ℚ) / 4 = q := by
  obtain ⟨m, rfl⟩ := h
  have h4 : (m : ℚ) / 4 * 4 = (m : ℚ) := by field_simp
  rw [h4, jsRound_intCast]

theorem IsHalfInt.jsRound_ten {q : ℚ} (h : IsHalfInt q) :
    ((jsRound (q * 10) : ℤ) : ℚ) / 10 = q := by
  obtain ⟨m, rfl⟩ := h
  have h10 : (m : ℚ) / 2 * 10 = ((5 * m : ℤ) : ℚ) := by push_cast; ring
  rw [h10, jsRound_intCast]
  push_cast
  ring

theorem splitByAux_forall_nil (p : Char → Bool) (cs : List Char) :
    ∀ acc, (∀ t ∈ splitByAux p cs acc, t = []) ↔ (acc = [] ∧ cs.all p) := by
  induction cs with
  | nil =>
      intro acc
      simp [splitByAux]
  | cons c cs ih =>
      intro acc
      by_cases hc : p c
      · simp [splitByAux, hc, ih]
      · simp [splitByAux, hc, ih]

/-- A transcript with zero whitespace-separated words is all whitespace, so
its JS `trim()` is empty: the no-speech branch condition of `server.js`
line 604 holds exactly when the word count of line 594 is zero. -/
theorem jsTrim_eq_nil_of_words_eq_zero {s : String} (h : ServerJs.words s = 0) :
    jsTrim s.toList = [] := by
  have hfilter : ((splitBy isWs s.toList).filter (fun t => t ≠ [])) = [] :=
    List.length_eq_zero.mp h
  have hall : s.toList.all isWs :=
    ((splitByAux_forall_nil isWs s.toList []).mp
      (fun t ht => by
        by_contra hne
        have hmem : t ∈ (splitBy isWs s.toList).filter (fun t => t ≠ []) :=
          List.mem_filter.mpr ⟨ht, by simp [hne]⟩
        rw [hfilter] at hmem
        exact absurd hmem (List.not_mem_nil t))).2
  have hdrop : s.toList.dropWhile isWs = [] :=
    List.dropWhile_eq_nil_iff.mpr (fun x hx => List.all_eq_true.mp hall x hx)
  unfold jsTrim
  rw [hdrop]
  rfl

/-- `Math.max(5, Math.min(9, x))` of a half-integer, divided back out of
`Math.round(x * 10) / 10`, stays in `[5, 9]` and is a quarter-integer. -/
theorem clamp_round_ten_shape {x : ℚ} (hx : IsHalfInt x) :
    5 ≤ max 5 (min 9 (((jsRound (x * 10) : ℤ) : ℚ) / 10)) ∧
    max 5 (min 9 (((jsRound (x * 10) : ℤ) : ℚ) / 10)) ≤ 9 ∧
    IsQuarterInt (max 5 (min 9 (((jsRound (x * 10) : ℤ) : ℚ) / 10))) := by
  rw [hx.jsRound_ten]
  exact ⟨le_max_left _ _, max_le (by norm_num) (min_le_left _ _),
    IsQuarterInt.max ⟨20, by norm_num⟩ (IsQuarterInt.min ⟨36, by norm_num⟩ hx.quarter)⟩

/-- `Math.round(Math.max(5, Math.min(9, x)) * 4) / 4` of a quarter-integer
stays in `[5, 9]` and is a quarter-integer. -/
theorem round_four_clamp_shape {x : ℚ} (hx : IsQuarterInt x) :
    5 ≤ ((jsRound (max 5 (min 9 x) * 4) : ℤ) : ℚ) / 4 ∧
    ((jsRound (max 5 (min 9 x) * 4) : ℤ) : ℚ) / 4 ≤ 9 ∧
    IsQuarterInt (((jsRound (max 5 (min 9 x) * 4) : ℤ) : ℚ) / 4) := by
  have hq : IsQuarterInt (max 5 (min 9 x)) :=
    IsQuarterInt.max ⟨20, by norm_num⟩ (IsQuarterInt.min ⟨36, by norm_num⟩ hx)
  rw [hq.jsRound_four]
  exact ⟨le_max_left _ _, max_le (by norm_num) (min_le_left _ _), hq⟩

/-- The `api/analyze.js` rating is the clamp of a half-integer:
`Math.round(rating * 10) / 10` is the identity on the reachable values. -/
theorem analyzeApi_rating_shape (field : String) (videoSize : ℕ) :
    5 ≤ AnalyzeApi.videoRating field videoSize ∧
    AnalyzeApi.videoRating field videoSize ≤ 9 ∧
    IsQuarterInt (AnalyzeApi.videoRating field videoSize) := by
  have hhalf : IsHalfInt
      (AnalyzeApi.analyzeBaseRating (AnalyzeApi.analyzeCategory field)
        + (if AnalyzeApi.durationMinutes videoSize > 2 then 1/2 else 0)
        + (if AnalyzeApi.durationMinutes videoSize > 5 then 1/2 else 0)
        + ((AnalyzeApi.combinedHash field videoSize % 3 : ℕ) : ℚ) - 1) := by
    refine IsHalfInt.sub (IsHalfInt.add (IsHalfInt.add (IsHalfInt.add ?_ ?_) ?_) ?_) ?_
    · unfold AnalyzeApi.analyzeBaseRating
      refine IsHalfInt.ite _ ⟨16, by norm_num⟩ (IsHalfInt.ite _ ⟨12, by norm_num⟩ ⟨14, by norm_num⟩)
    · exact IsHalfInt.ite _ ⟨1, by norm_num⟩ ⟨0, by norm_num⟩
    · exact IsHalfInt.ite _ ⟨1, by norm_num⟩ ⟨0, by norm_num⟩
    · exact isHalfInt_natCast _
    · exact ⟨2, by norm_num⟩
  exact clamp_round_ten_shape hhalf

/-- The `part_004` rating is the clamp of a quarter-integer:
`Math.round(finalRating * 4) / 4` is the identity on the reachable values. -/
theorem part004_rating_shape (field fileName : String) (fileSize : ℕ) :
    5 ≤ Part004.rating field fileName fileSize ∧
    Part004.rating field fileName fileSize ≤ 9 ∧
    IsQuarterInt (Part004.rating field fileName fileSize) := by
  have hbase : IsHalfInt (Part004.baseRating field fileSize) := by
    unfold Part004.baseRating
    refine IsHalfInt.sub (IsHalfInt.add (IsHalfInt.add ?_ ?_) ?_) ?_
    · refine IsHalfInt.ite _ ⟨14, by norm_num⟩ (IsHalfInt.ite _ ⟨15, by norm_num⟩
        (IsHalfInt.ite _ ⟨11, by norm_num⟩ ⟨12, by norm_num⟩))
    · exact IsHalfInt.ite _ ⟨1, by norm_num⟩ ⟨0, by norm_num⟩
    · exact IsHalfInt.ite _ ⟨1, by norm_num⟩ ⟨0, by norm_num⟩
    · exact IsHalfInt.ite _ ⟨1, by norm_num⟩ ⟨0, by norm_num⟩
  have hq : IsQuarterInt (Part004.baseRating field fileSize
      + (((Part004.fileHash field fileName fileSize % 8 : ℕ) : ℚ) - 4) * (1/4)) := by
    refine isQuarterInt_add hbase.quarter ?_
    obtain ⟨n, hn⟩ : ∃ n : ℕ, Part004.fileHash field fileName fileSize % 8 = n := ⟨_, rfl⟩
    rw [hn]
    exact ⟨(n : ℤ) - 4, by push_cast; ring⟩
  exact round_four_clamp_shape hq

theorem min_nine_max_one_bounds (x : ℚ) : 0 ≤ min 9 (max 1 x) ∧ min 9 (max 1 x) ≤ 10 :=
  ⟨le_min (by norm_num) (le_trans (by norm_num) (le_max_left 1 x)),
   le_trans (min_le_left _ _) (by norm_num)⟩

theorem fallbackParts_rating_bounds (t f : String) (m : ℕ) :
    1 ≤ (ServerJs.fallbackParts t f m).1 ∧ (ServerJs.fallbackParts t f m).1 ≤ 10 := by
  by_cases h1 : jsTrim t.toList = []
  · have hfst : (ServerJs.fallbackParts t f m).1 = 2 := by
      unfold ServerJs.fallbackParts
      rw [if_pos h1]
    rw [hfst]
    exact ⟨by norm_num, by norm_num⟩
  · by_cases h2 : ServerJs.words t < 20
    · have hfst : (ServerJs.fallbackParts t f m).1 = 4 := by
        unfold ServerJs.fallbackParts
        rw [if_neg h1, if_pos h2]
      rw [hfst]
      exact ⟨by norm_num, by norm_num⟩
    · have hb : 1 ≤ (ServerJs.fallbackParts t f m).1 ∧ (ServerJs.fallbackParts t f m).1 ≤ 10 := by
        unfold ServerJs.fallbackParts
        rw [if_neg h1, if_neg h2]
        exact ⟨le_max_left _ _, max_le (by norm_num) (min_le_left _ _)⟩
      exact hb

/-! ## Claims -/

/-- C1: for every field string and every file identity (filename, byte size),
two invocations of the file-identity scoring path with identical inputs
return identical `AnalysisResult` values — the same rating, the same mistake
entries in the same order, the same tips, and the same summary (the four
fields of `Analysis`).  Both file-identity scorers (`part_004` and
`api/analyze.js`) are pure functions of `(field, fileName, size)`, with no
randomness anywhere in the path. -/
theorem file_identity_scoring_deterministic
    (field₁ field₂ fileName₁ fileName₂ : String) (size₁ size₂ : ℕ)
    (hf : field₁ = field₂) (hn : fileName₁ = fileName₂) (hs : size₁ = size₂) :
    Part004.generateVideoBasedAnalysis field₁ fileName₁ size₁ =
      Part004.generateVideoBasedAnalysis field₂ fileName₂ size₂ ∧
    AnalyzeApi.generateVideoBasedAnalysis field₁ size₁ =
      AnalyzeApi.generateVideoBasedAnalysis field₂ size₂ := by
  subst hf
  subst hn
  subst hs
  exact ⟨rfl, rfl⟩

/-- Witness for C1 at the concrete input `("java", "a.mp4", 5242880)`. -/
theorem file_identity_scoring_deterministic_witness :
    Part004.generateVideoBasedAnalysis "java" "a.mp4" 5242880 =
      Part004.generateVideoBasedAnalysis "java" "a.mp4" 5242880 ∧
    AnalyzeApi.generateVideoBasedAnalysis "java" 5242880 =
      AnalyzeApi.generateVideoBasedAnalysis "java" 5242880 :=
  file_identity_scoring_deterministic "java" "java" "a.mp4" "a.mp4" 5242880 5242880
    rfl rfl rfl

/-- C9: in the deterministic file-identity scoring path the returned rating
always lies in `[5, 9]` and is an integer multiple of `0.25`, for every field
string, filename, and byte size — both in `part_004` and in the
`api/analyze.js` rating calculation. -/
theorem file_identity_rating_bounds :
    ∀ (field fileName : String) (fileSize videoSize : ℕ),
      (5 ≤ (Part004.generateVideoBasedAnalysis field fileName fileSize).rating ∧
       (Part004.generateVideoBasedAnalysis field fileName fileSize).rating ≤ 9 ∧
       IsQuarterInt (Part004.generateVideoBasedAnalysis field fileName fileSize).rating) ∧
      (5 ≤ (AnalyzeApi.generateVideoBasedAnalysis field videoSize).rating ∧
       (AnalyzeApi.generateVideoBasedAnalysis field videoSize).rating ≤ 9 ∧
       IsQuarterInt (AnalyzeApi.generateVideoBasedAnalysis field videoSize).rating) := by
  intro field fileName fileSize videoSize
  exact ⟨part004_rating_shape field fileName fileSize, analyzeApi_rating_shape field videoSize⟩

/-- C3: for every input to the scorer — text transcript (`part_003` and the
`server.js` fallback), file identity (`api/analyze.js` and `part_004`), or no
content at all (the no-video analysis) — the rating of the returned
`AnalysisResult` lies in `[0, 10]`. -/
theorem scorer_rating_in_unit_interval :
    (∀ (text field : String) (segments : List ℚ) (tt cw fw sm qw : ℕ),
      0 ≤ (Part003.analyzeRealSpeech text field segments tt cw fw sm qw).rating ∧
      (Part003.analyzeRealSpeech text field segments tt cw fw sm qw).rating ≤ 10) ∧
    (∀ (field : String) (videoSize : ℕ),
      0 ≤ (AnalyzeApi.generateVideoBasedAnalysis field videoSize).rating ∧
      (AnalyzeApi.generateVideoBasedAnalysis field videoSize).rating ≤ 10) ∧
    (∀ (field fileName : String) (fileSize : ℕ),
      0 ≤ (Part004.generateVideoBasedAnalysis field fileName fileSize).rating ∧
      (Part004.generateVideoBasedAnalysis field fileName fileSize).rating ≤ 10) ∧
    (∀ (fullText field : String) (fillerMatches : ℕ),
      0 ≤ (ServerJs.fallbackVideoAnalysis fullText field fillerMatches).rating ∧
      (ServerJs.fallbackVideoAnalysis fullText field fillerMatches).rating ≤ 10) ∧
    (∀ field : String,
      0 ≤ (AnalyzeApi.noVideoAnalysis field).rating ∧
      (AnalyzeApi.noVideoAnalysis field).rating ≤ 10) := by
  refine ⟨?_, ?_, ?_, ?_, ?_⟩
  · intro text field segments tt cw fw sm qw
    by_cases h1 : Part003.wordCount text < 5
    · have hr : (Part003.analyzeRealSpeech text field segments tt cw fw sm qw).rating = 0 := by
        unfold Part003.analyzeRealSpeech
        rw [if_pos h1]
      rw [hr]
      exact ⟨le_refl 0, by norm_num⟩
    · by_cases h2 : Part003.wordCount text < 20
      · have hr : (Part003.analyzeRealSpeech text field segments tt cw fw sm qw).rating = 2 := by
          unfold Part003.analyzeRealSpeech
          rw [if_neg h1, if_pos h2]
        rw [hr]
        exact ⟨by norm_num, by norm_num⟩
      · have hb : 0 ≤ (Part003.analyzeRealSpeech text field segments tt cw fw sm qw).rating ∧
            (Part003.analyzeRealSpeech text field segments tt cw fw sm qw).rating ≤ 10 := by
          unfold Part003.analyzeRealSpeech
          rw [if_neg h1, if_neg h2]
          exact min_nine_max_one_bounds _
        exact hb
  · intro field videoSize
    obtain ⟨h1, h2, -⟩ := analyzeApi_rating_shape field videoSize
    exact ⟨le_trans (by norm_num) h1, le_trans h2 (by norm_num)⟩
  · intro field fileName fileSize
    obtain ⟨h1, h2, -⟩ := part004_rating_shape field fileName fileSize
    exact ⟨le_trans (by norm_num) h1, le_trans h2 (by norm_num)⟩
  · intro fullText field fillerMatches
    obtain ⟨h1, h2⟩ := fallbackParts_rating_bounds fullText field fillerMatches
    have hl : (1 : ℤ) ≤ jsRound (ServerJs.fallbackParts fullText field fillerMatches).1 :=
      le_jsRound (by exact_mod_cast h1)
    have hu : jsRound (ServerJs.fallbackParts fullText field fillerMatches).1 ≤ (10 : ℤ) :=
      jsRound_le (by exact_mod_cast h2)
    constructor
    · show (0 : ℚ) ≤ ((jsRound (ServerJs.fallbackParts fullText field fillerMatches).1 : ℤ) : ℚ)
      exact_mod_cast le_trans (by norm_num) hl
    · show ((jsRound (ServerJs.fallbackParts fullText field fillerMatches).1 : ℤ) : ℚ) ≤ 10
      exact_mod_cast hu
  · intro field
    refine ⟨le_refl 0, ?_⟩
    show (0 : ℚ) ≤ 10
    norm_num

/-- C4: whenever the `server.js` text-signal fallback is invoked on a
transcript with zero whitespace-separated words, the result has rating in
`{0, 1, 2}` (it is exactly 2), exactly one mistake entry flagging that no
speech was detected, and the fixed remediation tips — every other scoring
adjustment is bypassed.  (In `part_003` a word count of zero is unreachable:
`split(' ')` returns at least one piece for every string.) -/
theorem zero_word_transcript_short_circuits
    (fullText field : String) (fillerMatches : ℕ)
    (h : ServerJs.words fullText = 0) :
    ((ServerJs.fallbackVideoAnalysis fullText field fillerMatches).rating = 0 ∨
     (ServerJs.fallbackVideoAnalysis fullText field fillerMatches).rating = 1 ∨
     (ServerJs.fallbackVideoAnalysis fullText field fillerMatches).rating = 2) ∧
    (ServerJs.fallbackVideoAnalysis fullText field fillerMatches).mistakes =
      [ ⟨"00:00", "No speech detected - make sure to speak clearly into the microphone"⟩ ] ∧
    (ServerJs.fallbackVideoAnalysis fullText field fillerMatches).tips =
      [ "Ensure your microphone is working and speak clearly",
        "Record in a quiet environment to improve audio quality",
        "Practice your responses out loud before recording" ] := by
  have ht := jsTrim_eq_nil_of_words_eq_zero h
  have hparts : ServerJs.fallbackParts fullText field fillerMatches =
      (2,
       [ ⟨"00:00", "No speech detected - make sure to speak clearly into the microphone"⟩ ],
       [ "Ensure your microphone is working and speak clearly",
         "Record in a quiet environment to improve audio quality",
         "Practice your responses out loud before recording" ]) := by
    unfold ServerJs.fallbackParts
    rw [if_pos ht]
  have hround : jsRound (2 : ℚ) = 2 :=
    jsRound_eq_of_between (by norm_num) (by norm_num)
  refine ⟨Or.inr (Or.inr ?_), ?_, ?_⟩
  · show ((jsRound (ServerJs.fallbackParts fullText field fillerMatches).1 : ℤ) : ℚ) = 2
    rw [hparts]
    norm_num [hround]
  · show (ServerJs.fallbackParts fullText field fillerMatches).2.1 = _
    rw [hparts]
  · show (ServerJs.fallbackParts fullText field fillerMatches).2.2 = _
    rw [hparts]

/-- Witness for C4 at the empty transcript. -/
theorem zero_word_transcript_short_circuits_witness :
    ServerJs.words "" = 0 ∧
    (((ServerJs.fallbackVideoAnalysis "" "software" 7).rating = 0 ∨
      (ServerJs.fallbackVideoAnalysis "" "software" 7).rating = 1 ∨
      (ServerJs.fallbackVideoAnalysis "" "software" 7).rating = 2) ∧
     (ServerJs.fallbackVideoAnalysis "" "software" 7).mistakes =
       [ ⟨"00:00", "No speech detected - make sure to speak clearly into the microphone"⟩ ] ∧
     (ServerJs.fallbackVideoAnalysis "" "software" 7).tips =
       [ "Ensure your microphone is working and speak clearly",
         "Record in a quiet environment to improve audio quality",
         "Practice your responses out loud before recording" ]) :=
  ⟨rfl, zero_word_transcript_short_circuits "" "software" 7 rfl⟩

/-- C8: for every field and every clamped integer count, the template
fallback path returns exactly `min(count, pool size)` questions: the shuffle
is a permutation of the resolved pool and `slice(0, count)` takes at most
`count` of them. -/
theorem question_set_length_min (field : String) (count : ℕ) (shuffled : List String)
    (hperm : shuffled.Perm (QuestionsApi.selectedTemplates field)) :
    (QuestionsApi.questionsOutput shuffled count).length =
      min count (QuestionsApi.selectedTemplates field).length := by
  unfold QuestionsApi.questionsOutput
  rw [List.length_take, hperm.length_eq]

/-- Witness for C8 at field `"software"`, count 5, with the identity
shuffle. -/
theorem question_set_length_min_witness :
    (QuestionsApi.questionsOutput (QuestionsApi.selectedTemplates "software") 5).length =
      min 5 (QuestionsApi.selectedTemplates "software").length :=
  question_set_length_min "software" 5 _ (List.Perm.refl _)

/-- C2 counterexample: the claim "every question of the template fallback
path ends with `?`" is false.  For field `"software"` (which resolves to the
`software` pool) and count 20, the output contains entries ending in `.` —
already for the identity permutation of the pool, which is a possible outcome
of the `sort(() => 0.5 - Math.random())` shuffle. -/
theorem question_templates_not_all_questions :
    QuestionsApi.matchedCategory "software" = some "software" ∧
    ((QuestionsApi.questionsOutput (QuestionsApi.selectedTemplates "software") 20).all
      QuestionsApi.endsWithQ) = false := by
  constructor
  · decide
  · decide

/-- C2 amended: the entries of the template fallback output are pairwise
distinct whenever the resolved pool is duplicate-free (the `?`-suffix half of
the claim is dropped: the pools mix `.`- and `?`-terminated prompts). -/
theorem question_set_nodup (field : String) (count : ℕ) (shuffled : List String)
    (hperm : shuffled.Perm (QuestionsApi.selectedTemplates field))
    (hnodup : (QuestionsApi.selectedTemplates field).Nodup) :
    (QuestionsApi.questionsOutput shuffled count).Nodup := by
  unfold QuestionsApi.questionsOutput
  exact List.Nodup.sublist (List.take_sublist count shuffled) (hperm.nodup_iff.mpr hnodup)

/-- Witness for the amended C2 at field `"software"`, count 20, identity
shuffle: the resolved pool is duplicate-free and so is the output. -/
theorem question_set_nodup_witness :
    (QuestionsApi.selectedTemplates "software").Nodup ∧
    (QuestionsApi.questionsOutput (QuestionsApi.selectedTemplates "software") 20).Nodup :=
  ⟨by decide, question_set_nodup "software" 20 _ (List.Perm.refl _) (by decide)⟩

/-- C5 counterexample: `"nurse"` contains no keyword of any registered
keyword set (neither the `questions.js` mappings nor the `java`/`intern`/
`entry` substrings tested by `api/analyze.js`), yet the `api/analyze.js`
category selection assigns it the `software` analysis pattern — a specific
category, not a generic analysis. -/
theorem no_keyword_field_gets_software_in_analyze :
    (QuestionsApi.fieldMappings.all fun m =>
      m.2.all fun kw => !jsIncludes (lowerAscii "nurse") kw) = true ∧
    jsIncludes (lowerAscii "nurse") "java" = false ∧
    jsIncludes (lowerAscii "nurse") "intern" = false ∧
    jsIncludes (lowerAscii "nurse") "entry" = false ∧
    AnalyzeApi.analyzeCategory "nurse" = "software" ∧
    AnalyzeApi.analyzeCategory "nurse" ≠ "generic" := by
  refine ⟨by decide, by decide, by decide, by decide, by decide, by decide⟩

/-- C5 amended: in the `questions.js` template path a field matching no
registered keyword set does resolve to the generic pool; the `api/analyze.js`
video scorer instead uses the `software` pattern as its catch-all. -/
theorem no_keyword_field_resolves_generic (field : String)
    (h : ∀ m ∈ QuestionsApi.fieldMappings, ∀ kw ∈ m.2,
      jsIncludes (lowerAscii field) kw = false) :
    QuestionsApi.matchedCategory field = none ∧
    QuestionsApi.selectedTemplates field = QuestionsApi.genericPool field := by
  have hnone : QuestionsApi.matchedCategory field = none := by
    have hfind : QuestionsApi.fieldMappings.find?
        (fun m => m.2.any (fun kw => jsIncludes (lowerAscii field) kw)) = none := by
      rw [List.find?_eq_none]
      intro m hm
      simp only [List.any_eq_true, not_exists, not_and, Bool.not_eq_true]
      intro kw hkw
      exact h m hm kw hkw
    show Option.map (fun x => x.1)
      (QuestionsApi.fieldMappings.find?
        (fun m => m.2.any (fun kw => jsIncludes (lowerAscii field) kw))) = none
    rw [hfind]
    rfl
  constructor
  · exact hnone
  · unfold QuestionsApi.selectedTemplates
    rw [hnone]

/-- Witness for the amended C5 at the no-keyword field `"nurse"`. -/
theorem no_keyword_field_resolves_generic_witness :
    QuestionsApi.matchedCategory "nurse" = none ∧
    QuestionsApi.selectedTemplates "nurse" = QuestionsApi.genericPool "nurse" :=
  no_keyword_field_resolves_generic "nurse" (by decide)

/-- C7 counterexample: the handlers clamp the requested count with
`Math.max(1, Math.min(20, Number(count)))` and never round, so the fractional
request 2.5 is used as 2.5, while the claimed formula
`clamp(round(requestedCount), 1, 20)` gives 3. -/
theorem count_clamp_no_rounding :
    QuestionsApi.questionCount (5/2) = 5/2 ∧
    specClampRound (5/2) = 3 ∧
    QuestionsApi.questionCount (5/2) ≠ specClampRound (5/2) := by
  have h1 : QuestionsApi.questionCount (5/2 : ℚ) = 5/2 := by
    unfold QuestionsApi.questionCount
    rw [min_eq_right (by norm_num), max_eq_right (by norm_num)]
  have hjr : jsRound (5/2 : ℚ) = 3 := jsRound_eq_of_between (by norm_num) (by norm_num)
  have h2 : specClampRound (5/2 : ℚ) = 3 := by
    unfold specClampRound
    rw [hjr, show (((3 : ℤ) : ℚ)) = 3 from by norm_num,
      min_eq_right (by norm_num), max_eq_right (by norm_num)]
  refine ⟨h1, h2, ?_⟩
  rw [h1, h2]
  norm_num

/-- C7 amended: the count used by the `questions.js` handler is
`clamp(requestedCount, 1, 20)` with no rounding; it coincides with the
claimed `clamp(round(·), 1, 20)` exactly on integer requests, and always
lies in `[1, 20]`. -/
theorem count_clamp_matches_spec_on_integers :
    (∀ c : ℤ, QuestionsApi.questionCount (c : ℚ) = specClampRound (c : ℚ)) ∧
    (∀ q : ℚ, 1 ≤ QuestionsApi.questionCount q ∧ QuestionsApi.questionCount q ≤ 20) := by
  constructor
  · intro c
    unfold QuestionsApi.questionCount specClampRound
    rw [jsRound_intCast]
  · intro q
    unfold QuestionsApi.questionCount
    exact ⟨le_max_left _ _, max_le (by norm_num) (min_le_left _ _)⟩

/-- C10 counterexample: a JSON body with `hasVideo` false is answered with
HTTP 413, not 200, when its `content-length` exceeds the 50 MB guard — the
guard fires before the no-video branch is reached. -/
theorem no_video_json_over_limit_413 :
    AnalyzeApi.handler "POST" "application/json" 52428801 none none false =
      ⟨413, none, none⟩ := by
  rfl

/-- C10 amended: for a POST with a JSON body carrying `hasVideo` absent or
false whose `content-length` is within the 50 MB limit, the handler responds
with status 200 and `success: true`, carrying the fixed analysis with
rating 0, exactly one mistake stamped `0:00`, and exactly five fixed tips. -/
theorem no_video_json_returns_success (contentLength : ℕ) (field : String)
    (h : contentLength ≤ 50 * 1024 * 1024) :
    AnalyzeApi.handler "POST" "application/json" contentLength none (some field) false =
      ⟨200, some true, some (AnalyzeApi.noVideoAnalysis field)⟩ ∧
    (AnalyzeApi.noVideoAnalysis field).rating = 0 ∧
    (AnalyzeApi.noVideoAnalysis field).mistakes.map Mistake.timestamp = ["0:00"] ∧
    (AnalyzeApi.noVideoAnalysis field).tips.length = 5 := by
  refine ⟨?_, rfl, rfl, rfl⟩
  unfold AnalyzeApi.handler
  rw [if_neg (by decide), if_neg (by decide), if_neg (by omega)]
  have hm : jsIncludes "application/json" "multipart/form-data" = false := by decide
  have hj : jsIncludes "application/json" "application/json" = true := by decide
  simp [hm, hj]

/-- Witness for the amended C10 at a 1000-byte JSON request for field
`"software"`. -/
theorem no_video_json_returns_success_witness :
    1000 ≤ 50 * 1024 * 1024 ∧
    (AnalyzeApi.handler "POST" "application/json" 1000 none (some "software") false =
       ⟨200, some true, some (AnalyzeApi.noVideoAnalysis "software")⟩ ∧
     (AnalyzeApi.noVideoAnalysis "software").rating = 0 ∧
     (AnalyzeApi.noVideoAnalysis "software").mistakes.map Mistake.timestamp = ["0:00"] ∧
     (AnalyzeApi.noVideoAnalysis "software").tips.length = 5) :=
  ⟨by norm_num, no_video_json_returns_success 1000 "software" (by norm_num)⟩

/-- C6 counterexample: in the `part_005` fallback for
`(field, file) = ("java", ("a.mp4", 3))` the returned rating is 8 — the
claimed band for 8 is the "strong" one — yet the summary does not contain
"Strong" (its band is computed from the hash-selected rating 6 with a `>= 5`
threshold and reads "Good"), and the rating is not interpolated into the
summary at all. -/
theorem summary_band_mismatch_part005 :
    (Part005.fallbackAnalysis "java" "a.mp4" 3).rating = 8 ∧
    specBandWord (Part005.fallbackAnalysis "java" "a.mp4" 3).rating = "Strong" ∧
    ¬ ("Strong".toList <:+: (Part005.fallbackAnalysis "java" "a.mp4" 3).summary.toList) ∧
    ¬ ((decStr (Part005.fallbackAnalysis "java" "a.mp4" 3).rating).toList <:+:
        (Part005.fallbackAnalysis "java" "a.mp4" 3).summary.toList) := by
  have hr : (Part005.fallbackAnalysis "java" "a.mp4" 3).rating = 8 := by decide
  have hd : decStr (8 : ℚ) = "8" := by
    unfold decStr
    rw [show jsRound ((8 : ℚ) * 100) = 800 from
      jsRound_eq_of_between (by norm_num) (by norm_num)]
    rfl
  refine ⟨hr, ?_, by decide, ?_⟩
  · rw [hr]
    unfold specBandWord
    rw [if_pos (by norm_num)]
  · rw [hr, hd]
    decide

/-- C6 amended: the `api/analyze.js` summary does interpolate the field name
and the rating and ends with the band sentence at the claimed thresholds
(`>= 7` strong, `>= 6` good, else developing); the `part_005` fallback
summary interpolates only the field name, and its band word is computed from
the hash-selected rating (not the returned rating) at thresholds `>= 7`
strong / `>= 5` good. -/
theorem summary_interpolation_and_bands :
    (∀ (field : String) (videoSize : ℕ),
      (∃ p, (AnalyzeApi.generateVideoBasedAnalysis field videoSize).summary =
        p ++ specBandSentence (AnalyzeApi.generateVideoBasedAnalysis field videoSize).rating) ∧
      (∃ s t, (AnalyzeApi.generateVideoBasedAnalysis field videoSize).summary.toList =
        s ++ field.toList ++ t) ∧
      (∃ u v, (AnalyzeApi.generateVideoBasedAnalysis field videoSize).summary.toList =
        u ++ (decStr (AnalyzeApi.generateVideoBasedAnalysis field videoSize).rating).toList ++ v)) ∧
    (∀ (field filename : String) (size : ℕ),
      (∃ p q, (Part005.fallbackAnalysis field filename size).summary.toList =
        p ++ (if Part005.hashRating filename size ≥ 7 then "Strong"
              else if Part005.hashRating filename size ≥ 5 then "Good"
              else "Developing").toList ++ q) ∧
      (∃ s t, (Part005.fallbackAnalysis field filename size).summary.toList =
        s ++ field.toList ++ t)) := by
  constructor
  · intro field videoSize
    refine ⟨⟨"Video analysis complete for " ++ field ++ " position (" ++
        decStr (((jsRound (AnalyzeApi.durationMinutes videoSize * 10) : ℤ) : ℚ) / 10) ++
        " min estimated). Overall performance: " ++
        decStr (AnalyzeApi.videoRating field videoSize) ++ "/10. ", rfl⟩, ?_, ?_⟩
    · refine ⟨"Video analysis complete for ".toList,
        (" position (" ++
          decStr (((jsRound (AnalyzeApi.durationMinutes videoSize * 10) : ℤ) : ℚ) / 10) ++
          " min estimated). Overall performance: " ++
          decStr (AnalyzeApi.videoRating field videoSize) ++ "/10. " ++
          specBandSentence (AnalyzeApi.videoRating field videoSize)).toList, ?_⟩
      show ("Video analysis complete for " ++ field ++ " position (" ++
          decStr (((jsRound (AnalyzeApi.durationMinutes videoSize * 10) : ℤ) : ℚ) / 10) ++
          " min estimated). Overall performance: " ++
          decStr (AnalyzeApi.videoRating field videoSize) ++ "/10. " ++
          specBandSentence (AnalyzeApi.videoRating field videoSize)).toList = _
      simp [String.toList, String.data_append, List.append_assoc]
    · rw [show (AnalyzeApi.generateVideoBasedAnalysis field videoSize).rating =
        AnalyzeApi.videoRating field videoSize from rfl]
      refine ⟨("Video analysis complete for " ++ field ++ " position (" ++
          decStr (((jsRound (AnalyzeApi.durationMinutes videoSize * 10) : ℤ) : ℚ) / 10) ++
          " min estimated). Overall performance: ").toList,
        ("/10. " ++ specBandSentence (AnalyzeApi.videoRating field videoSize)).toList, ?_⟩
      show ("Video analysis complete for " ++ field ++ " position (" ++
          decStr (((jsRound (AnalyzeApi.durationMinutes videoSize * 10) : ℤ) : ℚ) / 10) ++
          " min estimated). Overall performance: " ++
          decStr (AnalyzeApi.videoRating field videoSize) ++ "/10. " ++
          specBandSentence (AnalyzeApi.videoRating field videoSize)).toList = _
      simp [String.toList, String.data_append, List.append_assoc]
  · intro field filename size
    constructor
    · refine ⟨"Based on video analysis: ".toList,
        (" interview performance for " ++ field ++
          ". Continue practicing with specific examples and focus on clear, confident delivery.").toList, ?_⟩
      show ("Based on video analysis: " ++
          (if Part005.hashRating filename size ≥ 7 then "Strong"
           else if Part005.hashRating filename size ≥ 5 then "Good"
           else "Developing") ++
          " interview performance for " ++ field ++
          ". Continue practicing with specific examples and focus on clear, confident delivery.").toList = _
      simp [String.toList, String.data_append, List.append_assoc]
    · refine ⟨("Based on video analysis: " ++
          (if Part005.hashRating filename size ≥ 7 then "Strong"
           else if Part005.hashRating filename size ≥ 5 then "Good"
           else "Developing") ++
          " interview performance for ").toList,
        ". Continue practicing with specific examples and focus on clear, confident delivery.".toList, ?_⟩
      show ("Based on video analysis: " ++
          (if Part005.hashRating filename size ≥ 7 then "Strong"
           else if Part005.hashRating filename size ≥ 5 then "Good"
           else "Developing") ++
          " interview performance for " ++ field ++
          ". Continue practicing with specific examples and focus on clear, confident delivery.").toList = _
      simp [String.toList, String.data_append, List.append_assoc]

end InterviewLabs
